import Mathlib

/-!
Shallow embedding of the Superstore dashboard core
(`src/data_analysis.py`): data preparation (date parsing, derived
calendar fields, shipping duration, global KPI metrics) and the
query/filter engine behind `update_graphs` (filter chain plus the ten
group-by aggregations).

Sales amounts are modelled as rationals, datasets as lists of records.
Pandas group-by (with its default `sort=True`, which orders group keys
lexicographically for string keys) is modelled by collecting the
distinct keys, sorting them lexicographically, and summing the matching
rows for each key.
-/

namespace Superstore

/-- A calendar date as parsed from a day/month/year string. -/
structure Date where
  day : Nat
  month : Nat
  year : Nat
deriving DecidableEq, Repr

/-- Gregorian leap-year rule. -/
def isLeap (y : Nat) : Bool :=
  (y % 4 == 0 && y % 100 != 0) || y % 400 == 0

/-- Number of days in month `m` of year `y`. -/
def daysInMonth (y m : Nat) : Nat :=
  if m = 2 then (if isLeap y then 29 else 28)
  else if m = 4 ∨ m = 6 ∨ m = 9 ∨ m = 11 then 30
  else 31

/-- A date is valid when its components form a real Gregorian calendar
date within the range supported by the host datetime library. -/
def validDate (d : Date) : Bool :=
  decide (1 ≤ d.month) && decide (d.month ≤ 12) && decide (1 ≤ d.day)
    && decide (d.day ≤ daysInMonth d.year d.month)
    && decide (1 ≤ d.year) && decide (d.year ≤ 9999)

/-- Value of a decimal digit character, `none` on a non-digit. -/
def digitVal (c : Char) : Option Nat :=
  if decide ('0' ≤ c) && decide (c ≤ '9') then some (c.toNat - 48) else none

/-- Accumulate the decimal value of a digit string; `none` if any
character is not a digit. -/
def digitsValAux : List Char → Nat → Option Nat
  | [], acc => some acc
  | c :: cs, acc =>
    match digitVal c with
    | some v => digitsValAux cs (acc * 10 + v)
    | none => none

/-- Decimal value of a nonempty digit group of at most `maxLen`
characters, as the strptime field directives admit. -/
def digitsVal (cs : List Char) (maxLen : Nat) : Option Nat :=
  if cs.length = 0 ∨ maxLen < cs.length then none else digitsValAux cs 0

/-- Split a character list on the slash separator. -/
def splitSlash : List Char → List (List Char)
  | [] => [[]]
  | c :: cs =>
    let r := splitSlash cs
    if c = '/' then [] :: r
    else
      match r with
      | [] => [[c]]
      | g :: gs => (c :: g) :: gs

/-- Parse a date from the fixed day/month/year textual format, the
strptime semantics of the source's day/month/year format string:
three slash-separated decimal fields forming a valid calendar date;
`none` on any mismatch. -/
def parseDMY (s : String) : Option Date :=
  match splitSlash s.data with
  | [ds, ms, ys] =>
    match digitsVal ds 2, digitsVal ms 2, digitsVal ys 4 with
    | some d, some m, some y =>
      if validDate ⟨d, m, y⟩ then some ⟨d, m, y⟩ else none
    | _, _, _ => none
  | _ => none

/-- Days in the proleptic Gregorian calendar strictly before year `y`. -/
def daysBeforeYear (y : Nat) : Nat :=
  365 * (y - 1) + (y - 1) / 4 - (y - 1) / 100 + (y - 1) / 400

/-- Days of year `y` strictly before month `m`. -/
def daysBeforeMonth (y m : Nat) : Nat :=
  ((List.range (m - 1)).map (fun i => daysInMonth y (i + 1))).sum

/-- Rata-die day number of a date (day 1 is 0001-01-01). -/
def toRataDie (d : Date) : Nat :=
  daysBeforeYear d.year + daysBeforeMonth d.year d.month + d.day

/-- English month name, as produced by `dt.month_name()`. -/
def monthName : Nat → String
  | 1 => "January"
  | 2 => "February"
  | 3 => "March"
  | 4 => "April"
  | 5 => "May"
  | 6 => "June"
  | 7 => "July"
  | 8 => "August"
  | 9 => "September"
  | 10 => "October"
  | 11 => "November"
  | 12 => "December"
  | _ => ""

/-- English weekday name from a rata-die residue (day 1, 0001-01-01,
is a Monday). -/
def dayName : Nat → String
  | 0 => "Sunday"
  | 1 => "Monday"
  | 2 => "Tuesday"
  | 3 => "Wednesday"
  | 4 => "Thursday"
  | 5 => "Friday"
  | 6 => "Saturday"
  | _ => ""

/-- Weekday name of a date, as produced by `dt.day_name()`. -/
def weekDayName (d : Date) : String := dayName (toRataDie d % 7)

/-- One raw input row, dates still textual, as read from the CSV. -/
structure RawRecord where
  orderID : String
  orderDateStr : String
  shipDateStr : String
  sales : ℚ
  customerID : String
  category : String
  subCategory : String
  region : String
  segment : String
  productName : String
deriving DecidableEq, Repr

/-- One prepared row, with parsed dates and the derived fields added by
`preprocess_data`. -/
structure Record where
  orderID : String
  orderDate : Date
  shipDate : Date
  sales : ℚ
  customerID : String
  category : String
  subCategory : String
  region : String
  segment : String
  productName : String
  year : Nat
  month : String
  quarter : Nat
  weekDay : String
  shippingDays : ℤ
deriving DecidableEq, Repr

/-- Prepare one row: parse both dates, derive Year, Month name, Quarter,
WeekDay name from the order date, and ShippingDays as the signed day
difference ship − order (`(df.ShipDate - df.OrderDate).dt.days`). -/
def preprocessRecord (raw : RawRecord) : Option Record := do
  let od ← parseDMY raw.orderDateStr
  let sd ← parseDMY raw.shipDateStr
  some
    { orderID := raw.orderID
      orderDate := od
      shipDate := sd
      sales := raw.sales
      customerID := raw.customerID
      category := raw.category
      subCategory := raw.subCategory
      region := raw.region
      segment := raw.segment
      productName := raw.productName
      year := od.year
      month := monthName od.month
      quarter := (od.month + 2) / 3
      weekDay := weekDayName od
      shippingDays := (toRataDie sd : ℤ) - (toRataDie od : ℤ) }

/-- Prepare every row in order; `none` as soon as any row fails. -/
def preprocessAll : List RawRecord → Option (List Record)
  | [] => some []
  | raw :: rest => do
    let r ← preprocessRecord raw
    let rs ← preprocessAll rest
    some (r :: rs)

/-- `preprocess_data` over the whole table: every row must parse, and a
single failure aborts the load with an error propagated to the caller
(the source re-raises the exception from its handler), producing no
dataset at all. -/
def preprocess (raws : List RawRecord) : Except String (List Record) :=
  match preprocessAll raws with
  | some df => Except.ok df
  | none => Except.error "ParseError"

/-- Sum of a Sales series. -/
def seriesSum (l : List ℚ) : ℚ := l.sum

/-- Mean of a Sales series as pandas computes it: sum divided by row
count. -/
def seriesMean (l : List ℚ) : ℚ := l.sum / (l.length : ℚ)

/-- The global KPI metrics of `calculate_metrics`. -/
structure Metrics where
  total_sales : ℚ
  total_orders : Nat
  avg_order_value : ℚ
  unique_customers : Nat
deriving DecidableEq, Repr

/-- `calculate_metrics`: aggregates over the full prepared dataset. -/
def calculateMetrics (df : List Record) : Metrics :=
  { total_sales := seriesSum (df.map (·.sales))
    total_orders := ((df.map (·.orderID)).dedup).length
    avg_order_value := seriesMean (df.map (·.sales))
    unique_customers := ((df.map (·.customerID)).dedup).length }

/-- The three dashboard filter controls: multi-select category and
region (a Python empty/None selection is modelled as the empty list)
and a single optional year. -/
structure FilterSelection where
  categories : List String
  regions : List String
  year : Option Nat
deriving DecidableEq, Repr

/-- Python truthiness of the year control value: `none` (None) and
`some 0` (the integer 0) are falsy. -/
def truthyYear : Option Nat → Bool
  | none => false
  | some y => y != 0

/-- The filter chain of `update_graphs`: working on a copy of the base
dataframe, narrow by category membership when the category selection is
truthy, then by region membership, then by year equality when the year
value is truthy. -/
def filterData (df : List Record) (sel : FilterSelection) : List Record :=
  let dff := df
  let dff := if sel.categories.isEmpty then dff
    else dff.filter (fun r => sel.categories.contains r.category)
  let dff := if sel.regions.isEmpty then dff
    else dff.filter (fun r => sel.regions.contains r.region)
  let dff := if truthyYear sel.year then
      dff.filter (fun r => decide (some r.year = sel.year))
    else dff
  dff

/-- Lexicographic comparison of character lists by code point, the
order pandas uses when sorting string group keys. -/
def charListLeB : List Char → List Char → Bool
  | [], _ => true
  | _ :: _, [] => false
  | a :: as, b :: bs =>
    if a.val < b.val then true
    else if b.val < a.val then false
    else charListLeB as bs

/-- Lexicographic order on strings. -/
def strLe (a b : String) : Prop := charListLeB a.data b.data = true

instance : DecidableRel strLe := fun a b => by unfold strLe; infer_instance

/-- Lexicographic order on string pairs (multi-key group-by sorts by
the key tuple). -/
def strPairLe (a b : String × String) : Prop :=
  if a.1 = b.1 then strLe a.2 b.2 else strLe a.1 b.1

instance : DecidableRel strPairLe := fun a b => by unfold strPairLe; infer_instance

/-- The distinct key values of a dataframe under key function `f`,
sorted as pandas group-by (default `sort=True`) orders group keys. -/
def keysOf {κ : Type} [DecidableEq κ] (le : κ → κ → Prop) [DecidableRel le]
    (f : Record → κ) (df : List Record) : List κ :=
  ((df.map f).dedup).insertionSort le

/-- `df.groupby(f).agg(g)`: one output row per distinct key, in sorted
key order, with measure `g` of the rows carrying that key. -/
def groupByAgg {κ μ : Type} [DecidableEq κ] (le : κ → κ → Prop) [DecidableRel le]
    (f : Record → κ) (g : List Record → μ) (df : List Record) : List (κ × μ) :=
  (keysOf le f df).map (fun k => (k, g (df.filter (fun r => decide (f r = k)))))

/-- Sum of the Sales column of a dataframe. -/
def sumSales (df : List Record) : ℚ := (df.map (·.sales)).sum

/-- `df.groupby(f)['Sales'].sum()` for a single string key. -/
def groupBySum (f : Record → String) (df : List Record) : List (String × ℚ) :=
  groupByAgg strLe f sumSales df

/-- `df.groupby([f1, f2])['Sales'].sum()` for a two-part string key. -/
def groupBySum2 (f : Record → String × String) (df : List Record) :
    List ((String × String) × ℚ) :=
  groupByAgg strPairLe f sumSales df

/-- Comparator realising `Series.nlargest`, which keeps the first
occurrence among ties: larger measure first, equal measures ordered by
position in the series. -/
def nlargestLe (a b : Nat × (String × ℚ)) : Prop :=
  b.2.2 < a.2.2 ∨ (a.2.2 = b.2.2 ∧ a.1 ≤ b.1)

instance : DecidableRel nlargestLe := fun a b => by unfold nlargestLe; infer_instance

/-- `Series.nlargest(n)`: the `n` largest entries of the series, ties
broken in favour of earlier positions. -/
def nlargest (n : Nat) (l : List (String × ℚ)) : List (String × ℚ) :=
  ((l.enum.insertionSort nlargestLe).take n).map (·.2)

/-- Ascending order on measure, for the final
`sort_values(ascending=True)`. -/
def salesAsc (a b : String × ℚ) : Prop := a.2 ≤ b.2

instance : DecidableRel salesAsc := fun a b => by unfold salesAsc; infer_instance

instance : IsTotal (String × ℚ) salesAsc := ⟨fun a b => le_total a.2 b.2⟩

instance : IsTrans (String × ℚ) salesAsc := ⟨fun _ _ _ h1 h2 => le_trans h1 h2⟩

instance : IsTotal (Nat × (String × ℚ)) nlargestLe := ⟨by
  intro a b
  unfold nlargestLe
  rcases lt_trichotomy a.2.2 b.2.2 with h | h | h
  · exact Or.inr (Or.inl h)
  · rcases Nat.le_total a.1 b.1 with hn | hn
    · exact Or.inl (Or.inr ⟨h, hn⟩)
    · exact Or.inr (Or.inr ⟨h.symm, hn⟩)
  · exact Or.inl (Or.inl h)⟩

instance : IsTrans (Nat × (String × ℚ)) nlargestLe := ⟨by
  intro a b c hab hbc
  unfold nlargestLe at hab hbc ⊢
  rcases hab with hab | ⟨hab1, hab2⟩ <;> rcases hbc with hbc | ⟨hbc1, hbc2⟩
  · exact Or.inl (lt_trans hbc hab)
  · exact Or.inl (by rw [← hbc1]; exact hab)
  · exact Or.inl (by rw [hab1]; exact hbc)
  · exact Or.inr ⟨hab1.trans hbc1, le_trans hab2 hbc2⟩⟩

/-- The top-products pipeline of the source:
`groupby('Product Name')['Sales'].sum().nlargest(10).sort_values(ascending=True)`. -/
def topProductsOf (df : List Record) : List (String × ℚ) :=
  (nlargest 10 (groupBySum (·.productName) df)).insertionSort salesAsc

/-- The ten aggregate result tables returned by `update_graphs`, in the
source's order. The heatmap chart is represented by its aggregate
(weekday, month) sales table. -/
structure ChartResults where
  monthlyTrend : List (String × ℚ)
  categorySales : List (String × ℚ)
  regionSales : List (String × ℚ)
  segmentSales : List (String × ℚ)
  customerSegments : List (String × (ℚ × Nat))
  customerRegion : List (String × Nat)
  orderPatterns : List ((String × String) × ℚ)
  subcategorySales : List ((String × String) × ℚ)
  topProducts : List (String × ℚ)
  categoryTrend : List ((String × String) × ℚ)
deriving DecidableEq, Repr

/-- `update_graphs`: filter the dataset by the selection, then run the
ten aggregations against the filtered view. -/
def updateGraphs (df : List Record) (sel : FilterSelection) : ChartResults :=
  let dff := filterData df sel
  { monthlyTrend := groupBySum (·.month) dff
    categorySales := groupBySum (·.category) dff
    regionSales := groupBySum (·.region) dff
    segmentSales := groupBySum (·.segment) dff
    customerSegments :=
      groupByAgg strLe (·.customerID) (fun l => (sumSales l, l.length)) dff
    customerRegion :=
      groupByAgg strLe (·.region) (fun l => ((l.map (·.customerID)).dedup).length) dff
    orderPatterns := groupBySum2 (fun r => (r.weekDay, r.month)) dff
    subcategorySales := groupBySum2 (fun r => (r.category, r.subCategory)) dff
    topProducts := topProductsOf dff
    categoryTrend := groupBySum2 (fun r => (r.month, r.category)) dff }

/-- The dashboard's long-lived state: the prepared dataframe and the
metrics computed once at startup. -/
structure DashboardState where
  df : List Record
  metrics : Metrics
deriving DecidableEq, Repr

/-- One callback invocation as a state transition: the handler works on
a copy of `self.df` (`dff = self.df.copy()`) and never assigns any
instance attribute, so the state component is returned unchanged next
to the ten chart results. -/
def updateGraphsStep (st : DashboardState) (sel : FilterSelection) :
    DashboardState × ChartResults :=
  (st, updateGraphs st.df sel)

/-- Modelled from the spec (for comparison with `filterData`): the
filtered view as the claim words it — keep rows whose Category is in
the selection (skip when empty/absent), whose Region is in the
selection (skip when empty/absent), and whose Year equals the selection
year (skip only when absent). -/
def specFilteredView (df : List Record) (sel : FilterSelection) : List Record :=
  df.filter (fun r =>
    (sel.categories.isEmpty || sel.categories.contains r.category)
      && (sel.regions.isEmpty || sel.regions.contains r.region)
      && (match sel.year with
          | none => true
          | some y => decide (r.year = y)))

/-- The empty filter selection (no category, region or year chosen). -/
def noFilter : FilterSelection := ⟨[], [], none⟩

/-- A sample prepared record used to instantiate the universally
quantified theorems on concrete data. -/
def baseRec : Record :=
  { orderID := "O1"
    orderDate := ⟨1, 1, 2021⟩
    shipDate := ⟨5, 1, 2021⟩
    sales := 100
    customerID := "C1"
    category := "Furniture"
    subCategory := "Chairs"
    region := "East"
    segment := "Consumer"
    productName := "Chair"
    year := 2021
    month := "January"
    quarter := 1
    weekDay := "Friday"
    shippingDays := 4 }

/-- A raw sample row with a January 2021 order date. -/
def rawJan : RawRecord where
  orderID := "O1"
  orderDateStr := "05/01/2021"
  shipDateStr := "07/01/2021"
  sales := 100
  customerID := "C1"
  category := "Furniture"
  subCategory := "Chairs"
  region := "East"
  segment := "Consumer"
  productName := "Chair"

/-- A raw sample row with a February 2021 order date. -/
def rawFeb : RawRecord where
  orderID := "O2"
  orderDateStr := "10/02/2021"
  shipDateStr := "12/02/2021"
  sales := 50
  customerID := "C1"
  category := "Furniture"
  subCategory := "Chairs"
  region := "East"
  segment := "Consumer"
  productName := "Chair"

/-- A raw sample row whose order date does not match the day/month/year
format. -/
def rawBad : RawRecord where
  orderID := "O3"
  orderDateStr := "2021-01-05"
  shipDateStr := "07/01/2021"
  sales := 10
  customerID := "C1"
  category := "Furniture"
  subCategory := "Chairs"
  region := "East"
  segment := "Consumer"
  productName := "Chair"

/-- The prepared form of `rawJan`. -/
def janRec : Record where
  orderID := "O1"
  orderDate := ⟨5, 1, 2021⟩
  shipDate := ⟨7, 1, 2021⟩
  sales := 100
  customerID := "C1"
  category := "Furniture"
  subCategory := "Chairs"
  region := "East"
  segment := "Consumer"
  productName := "Chair"
  year := 2021
  month := "January"
  quarter := 1
  weekDay := "Tuesday"
  shippingDays := 2

/-- The prepared form of `rawFeb`. -/
def febRec : Record where
  orderID := "O2"
  orderDate := ⟨10, 2, 2021⟩
  shipDate := ⟨12, 2, 2021⟩
  sales := 50
  customerID := "C1"
  category := "Furniture"
  subCategory := "Chairs"
  region := "East"
  segment := "Consumer"
  productName := "Chair"
  year := 2021
  month := "February"
  quarter := 1
  weekDay := "Wednesday"
  shippingDays := 2

/-- A raw row used for the shipping-duration round trip of the spec:
order date 01/01/2021, ship date 05/01/2021. -/
def rawRoundTrip : RawRecord where
  orderID := "O4"
  orderDateStr := "01/01/2021"
  shipDateStr := "05/01/2021"
  sales := 25
  customerID := "C2"
  category := "Technology"
  subCategory := "Phones"
  region := "West"
  segment := "Corporate"
  productName := "Phone"

/-- A raw row whose ship date precedes its order date (inconsistent
source data); its shipping duration comes out negative. -/
def rawNegShip : RawRecord where
  orderID := "O5"
  orderDateStr := "01/01/2021"
  shipDateStr := "29/12/2020"
  sales := 25
  customerID := "C2"
  category := "Technology"
  subCategory := "Phones"
  region := "West"
  segment := "Corporate"
  productName := "Phone"

/-- Two line items of one order (same OrderID), to separate the per-row
mean from the per-order mean. -/
def twoLineItemDf : List Record :=
  [baseRec, { baseRec with sales := 200, productName := "Desk" }]

/-- A record variant with a given product name and sales amount. -/
def mkProd (name : String) (s : ℚ) : Record :=
  { baseRec with productName := name, sales := s }

/-- Eleven single-row products with a sales tie at the bottom: P01 and
P02 both sum to 1, so the ten largest keep P01 (earlier in key order)
and drop P02. -/
def prodDf : List Record :=
  [mkProd "P01" 1, mkProd "P02" 1, mkProd "P03" 2, mkProd "P04" 3,
   mkProd "P05" 4, mkProd "P06" 5, mkProd "P07" 6, mkProd "P08" 7,
   mkProd "P09" 8, mkProd "P10" 9, mkProd "P11" 10]

/-- The prepared form of `rawRoundTrip`. -/
def roundTripRec : Record where
  orderID := "O4"
  orderDate := ⟨1, 1, 2021⟩
  shipDate := ⟨5, 1, 2021⟩
  sales := 25
  customerID := "C2"
  category := "Technology"
  subCategory := "Phones"
  region := "West"
  segment := "Corporate"
  productName := "Phone"
  year := 2021
  month := "January"
  quarter := 1
  weekDay := "Friday"
  shippingDays := 4

/-!
Helper lemmas shared by the claim theorems.
-/

/-- A failed date parse on either column makes the row preparation
fail. -/
theorem preprocessRecord_eq_none {raw : RawRecord}
    (h : parseDMY raw.orderDateStr = none ∨ parseDMY raw.shipDateStr = none) :
    preprocessRecord raw = none := by
  unfold preprocessRecord
  rcases h with h | h
  · rw [h]; rfl
  · cases ho : parseDMY raw.orderDateStr
    · rfl
    · rw [h]; rfl

/-- A single failing row aborts the whole preparation. -/
theorem preprocessAll_eq_none :
    ∀ raws : List RawRecord, (∃ raw ∈ raws, preprocessRecord raw = none) →
      preprocessAll raws = none := by
  intro raws h
  induction raws with
  | nil => rcases h with ⟨raw, hmem, _⟩; cases hmem
  | cons a rest ih =>
    rcases h with ⟨raw, hmem, hnone⟩
    rcases List.mem_cons.mp hmem with rfl | hmem
    · unfold preprocessAll; rw [hnone]; rfl
    · unfold preprocessAll
      cases preprocessRecord a
      · rfl
      · rw [ih ⟨raw, hmem, hnone⟩]; rfl

/-- Splitting a sales sum by a Boolean predicate. -/
theorem sumSales_filter_split (p : Record → Bool) :
    ∀ df : List Record,
      sumSales (df.filter p) + sumSales (df.filter (fun r => !(p r))) = sumSales df := by
  intro df
  induction df with
  | nil => simp [sumSales]
  | cons a l ih =>
    cases hp : p a with
    | false =>
      rw [List.filter_cons_of_neg (by simp [hp]), List.filter_cons_of_pos (by simp [hp])]
      simp only [sumSales, List.map_cons, List.sum_cons] at ih ⊢
      linarith
    | true =>
      rw [List.filter_cons_of_pos (by simp [hp]), List.filter_cons_of_neg (by simp [hp])]
      simp only [sumSales, List.map_cons, List.sum_cons] at ih ⊢
      linarith

/-- Summing the per-group sales over any duplicate-free list of keys
covering a dataframe recovers the total sales of the dataframe. -/
theorem sum_groups {κ : Type} [DecidableEq κ] (f : Record → κ) :
    ∀ (keys : List κ) (df : List Record), keys.Nodup →
      (∀ r ∈ df, f r ∈ keys) →
      (keys.map (fun k => sumSales (df.filter (fun r => decide (f r = k))))).sum
        = sumSales df := by
  intro keys
  induction keys with
  | nil =>
    intro df _ hcov
    have hdf : df = [] := by
      cases df with
      | nil => rfl
      | cons a l => exact absurd (hcov a (List.mem_cons_self a l)) (List.not_mem_nil _)
    subst hdf
    simp [sumSales]
  | cons k ks ih =>
    intro df hnd hcov
    have hk : k ∉ ks := (List.nodup_cons.mp hnd).1
    have hndks : ks.Nodup := (List.nodup_cons.mp hnd).2
    have hcov' : ∀ r ∈ df.filter (fun r => !(decide (f r = k))), f r ∈ ks := by
      intro r hr
      have hmf := List.mem_filter.mp hr
      have hfr : f r ≠ k := by simpa using hmf.2
      rcases List.mem_cons.mp (hcov r hmf.1) with h | h
      · exact absurd h hfr
      · exact h
    have hsame : ∀ k' ∈ ks,
        sumSales (df.filter (fun r => decide (f r = k')))
          = sumSales ((df.filter (fun r => !(decide (f r = k)))).filter
              (fun r => decide (f r = k'))) := by
      intro k' hk'
      rw [List.filter_filter]
      congr 1
      apply List.filter_congr
      intro r _
      cases hfr : decide (f r = k') with
      | false => simp
      | true =>
        have : f r = k' := of_decide_eq_true hfr
        have : f r ≠ k := by
          rw [this]; intro hkk; exact hk (hkk ▸ hk')
        simp [this]
    calc (List.map (fun k => sumSales (df.filter (fun r => decide (f r = k)))) (k :: ks)).sum
        = sumSales (df.filter (fun r => decide (f r = k)))
            + (ks.map (fun k' => sumSales (df.filter (fun r => decide (f r = k'))))).sum := by
          simp
      _ = sumSales (df.filter (fun r => decide (f r = k)))
            + (ks.map (fun k' => sumSales ((df.filter (fun r => !(decide (f r = k)))).filter
                (fun r => decide (f r = k'))))).sum := by
          rw [List.map_congr_left hsame]
      _ = sumSales (df.filter (fun r => decide (f r = k)))
            + sumSales (df.filter (fun r => !(decide (f r = k)))) := by
          rw [ih (df.filter (fun r => !(decide (f r = k)))) hndks hcov']
      _ = sumSales df := sumSales_filter_split _ df

/-- C1: the avg_order_value metric equals sum(Sales) divided by the row
count of the full dataset (the unweighted per-row mean of Sales) for
every non-empty dataset, and on a dataset with two line items of one
order it differs from sum(Sales) divided by the number of distinct
OrderID values. -/
theorem c1_avg_order_value :
    (∀ df : List Record, df ≠ [] →
      (calculateMetrics df).avg_order_value
        = seriesSum (df.map (fun r => r.sales)) / (df.length : ℚ))
    ∧ (calculateMetrics twoLineItemDf).avg_order_value
        ≠ (calculateMetrics twoLineItemDf).total_sales
            / ((calculateMetrics twoLineItemDf).total_orders : ℚ) := by
  constructor
  · intro df _
    simp [calculateMetrics, seriesMean, seriesSum]
  · norm_num [calculateMetrics, twoLineItemDf, baseRec, seriesMean, seriesSum]

/-- Witness for C1 at the concrete two-line-item dataset. -/
theorem c1_witness :
    (calculateMetrics twoLineItemDf).avg_order_value
      = seriesSum (twoLineItemDf.map (fun r => r.sales)) / (twoLineItemDf.length : ℚ) :=
  c1_avg_order_value.1 twoLineItemDf (by decide)

/-- C5: the derived ShippingDays field of every successfully prepared
record equals the signed day difference ship date minus order date,
with no clamping (a negative difference is kept); for order date
01/01/2021 and ship date 05/01/2021 it equals 4. -/
theorem c5_shipping_days :
    (∀ raw rec, preprocessRecord raw = some rec →
        rec.shippingDays = (toRataDie rec.shipDate : ℤ) - (toRataDie rec.orderDate : ℤ))
    ∧ (preprocessRecord rawRoundTrip).map (fun r => r.shippingDays) = some 4
    ∧ (preprocessRecord rawNegShip).map (fun r => r.shippingDays) = some (-3) := by
  refine ⟨?_, by decide, by decide⟩
  intro raw rec h
  unfold preprocessRecord at h
  cases ho : parseDMY raw.orderDateStr with
  | none => rw [ho] at h; exact absurd h (by simp)
  | some od =>
    cases hs : parseDMY raw.shipDateStr with
    | none => rw [ho, hs] at h; exact absurd h (by simp)
    | some sd =>
      rw [ho, hs] at h
      simp only [Option.bind_eq_bind, Option.some_bind, Option.some.injEq] at h
      subst h
      rfl

/-- Witness for C5 at the concrete round-trip row. -/
theorem c5_witness :
    preprocessRecord rawRoundTrip = some roundTripRec
    ∧ roundTripRec.shippingDays
        = (toRataDie roundTripRec.shipDate : ℤ) - (toRataDie roundTripRec.orderDate : ℤ) :=
  ⟨by decide, c5_shipping_days.1 rawRoundTrip roundTripRec (by decide)⟩

/-- C6: if any order-date or ship-date value fails to match the
day/month/year format, the whole preparation fails with a parse error
propagated to the caller and no dataset is produced. -/
theorem c6_parse_error :
    ∀ raws : List RawRecord,
      (∃ raw ∈ raws, parseDMY raw.orderDateStr = none ∨ parseDMY raw.shipDateStr = none) →
      preprocess raws = Except.error "ParseError" := by
  intro raws ⟨raw, hmem, hbad⟩
  have h : preprocessAll raws = none :=
    preprocessAll_eq_none raws ⟨raw, hmem, preprocessRecord_eq_none hbad⟩
  unfold preprocess
  rw [h]

/-- Witness for C6: one malformed order date poisons a two-row load. -/
theorem c6_witness : preprocess [rawJan, rawBad] = Except.error "ParseError" :=
  c6_parse_error [rawJan, rawBad] ⟨rawBad, by decide, Or.inl (by decide)⟩

/-- C7: whenever the filtered view is empty — in particular when the
selection names a category, region or year absent from the dataset —
all ten chart results are empty result sets with zero groups. -/
theorem c7_empty_view :
    ∀ (df : List Record) (sel : FilterSelection), filterData df sel = [] →
      updateGraphs df sel = ⟨[], [], [], [], [], [], [], [], [], []⟩ := by
  intro df sel h
  simp only [updateGraphs, h]
  rfl

/-- Witness for C7: a selection naming a category absent from the
dataset empties every chart. -/
theorem c7_witness :
    updateGraphs [baseRec] ⟨["Technology"], [], none⟩
      = ⟨[], [], [], [], [], [], [], [], [], []⟩ :=
  c7_empty_view [baseRec] ⟨["Technology"], [], none⟩ (by decide)

/-- C9: a callback invocation leaves the dashboard state unchanged
(filtering is non-destructive), and the ten chart results are a
deterministic function of the dataset and the selection. -/
theorem c9_pure :
    ∀ (st : DashboardState) (sel : FilterSelection) (df₁ df₂ : List Record)
      (s₁ s₂ : FilterSelection),
      (updateGraphsStep st sel).1 = st
      ∧ (df₁ = df₂ → s₁ = s₂ → updateGraphs df₁ s₁ = updateGraphs df₂ s₂) :=
  fun _ _ _ _ _ _ => ⟨rfl, fun h1 h2 => by rw [h1, h2]⟩

/-- Witness for C9 at a concrete state and selection. -/
theorem c9_witness :
    (updateGraphsStep ⟨[baseRec], calculateMetrics [baseRec]⟩ noFilter).1
        = ⟨[baseRec], calculateMetrics [baseRec]⟩
    ∧ updateGraphs [baseRec] noFilter = updateGraphs [baseRec] noFilter :=
  ⟨(c9_pure ⟨[baseRec], calculateMetrics [baseRec]⟩ noFilter [baseRec] [baseRec]
      noFilter noFilter).1,
   (c9_pure ⟨[baseRec], calculateMetrics [baseRec]⟩ noFilter [baseRec] [baseRec]
      noFilter noFilter).2 rfl rfl⟩

/-- Skipping a filter equals filtering with the skip flag disjoined in. -/
theorem filter_skip_or (b : Bool) (p : Record → Bool) (l : List Record) :
    (if b then l else l.filter p) = l.filter (fun r => b || p r) := by
  cases b <;> simp

/-- Applying a filter under a flag equals filtering with the negated
flag disjoined in. -/
theorem filter_when (b : Bool) (p : Record → Bool) (l : List Record) :
    (if b then l.filter p else l) = l.filter (fun r => !b || p r) := by
  cases b <;> simp

/-- C2 fails as stated: with the year value 0 present in the selection,
the code keeps a row whose Year is 2021, while the claimed semantics
(year filter skipped only when absent) would discard it. -/
theorem c2_counterexample :
    filterData [baseRec] ⟨[], [], some 0⟩ ≠ specFilteredView [baseRec] ⟨[], [], some 0⟩ := by
  decide

/-- C2 (amended): the filtered view keeps exactly the rows whose
Category is in the selection (skipped when empty/absent), whose Region
is in the selection (skipped when empty/absent), and whose Year equals
the selection year, where the year step is skipped when the year is
absent or when its value is the falsy integer 0; membership gives OR
semantics within a field and the conjunction gives AND semantics across
the three fields, applied category, region, year in that order. -/
theorem c2_filter_semantics :
    ∀ (df : List Record) (sel : FilterSelection),
      filterData df sel = df.filter (fun r =>
        (sel.categories.isEmpty || sel.categories.contains r.category)
        && (sel.regions.isEmpty || sel.regions.contains r.region)
        && (!truthyYear sel.year || decide (some r.year = sel.year))) := by
  intro df sel
  simp only [filterData]
  rw [filter_skip_or, filter_skip_or, filter_when, List.filter_filter, List.filter_filter]
  apply List.filter_congr
  intro r _
  cases hc : (sel.categories.isEmpty || sel.categories.contains r.category) <;>
    cases hr : (sel.regions.isEmpty || sel.regions.contains r.region) <;>
      cases hy : (!truthyYear sel.year || decide (some r.year = sel.year)) <;>
        simp [hc, hr, hy]

/-- C4 evidence: on a two-row dataset with a January and a February 2021
order, the prepared data is as expected but the monthly trend rows come
out ordered alphabetically by month name (February before January), not
in calendar order. -/
theorem c4_month_alphabetical :
    preprocess [rawJan, rawFeb] = Except.ok [janRec, febRec]
    ∧ (updateGraphs [janRec, febRec] noFilter).monthlyTrend.map Prod.fst
        = ["February", "January"]
    ∧ (updateGraphs [janRec, febRec] noFilter).monthlyTrend.map Prod.fst
        ≠ ["January", "February"] := by
  refine ⟨?_, by decide, by decide⟩
  have h : preprocessAll [rawJan, rawFeb] = some [janRec, febRec] := by decide
  unfold preprocess
  rw [h]

/-- C8: the measures of the sales_by_category result sum to the total
Sales of the same filtered view, for every dataset and selection. -/
theorem c8_category_sum :
    ∀ (df : List Record) (sel : FilterSelection),
      (((updateGraphs df sel).categorySales).map (fun e => e.2)).sum
        = sumSales (filterData df sel) := by
  intro df sel
  have hres : (updateGraphs df sel).categorySales
      = groupBySum (fun r => r.category) (filterData df sel) := rfl
  rw [hres]
  unfold groupBySum groupByAgg
  rw [List.map_map]
  show ((keysOf strLe (fun r => r.category) (filterData df sel)).map
      (fun k => sumSales ((filterData df sel).filter (fun r => decide (r.category = k))))).sum
    = sumSales (filterData df sel)
  apply sum_groups
  · exact (List.perm_insertionSort strLe _).symm.nodup (List.nodup_dedup _)
  · intro r hr
    exact (List.mem_insertionSort strLe).mpr
      (List.mem_dedup.mpr (List.mem_map_of_mem _ hr))

/-- Every entry produced by `nlargest` is an entry of the input
series. -/
theorem nlargest_subset {l : List (String × ℚ)} {p : String × ℚ}
    (hp : p ∈ nlargest 10 l) : p ∈ l := by
  unfold nlargest at hp
  rcases List.mem_map.mp hp with ⟨e, he, rfl⟩
  have he2 : e ∈ l.enum :=
    (List.mem_insertionSort nlargestLe).mp (List.mem_of_mem_take he)
  exact List.getElem?_mem (List.mk_mem_enum_iff_getElem?.mp he2)

/-- Selection property of `nlargest`: a kept entry's measure dominates
every dropped entry's measure, and a tie can only be dropped in favour
of an entry occurring earlier in the series. -/
theorem nlargest_choice {l : List (String × ℚ)} {p q : String × ℚ}
    (hp : p ∈ nlargest 10 l) (hq : q ∈ l) (hqn : q ∉ nlargest 10 l) :
    q.2 ≤ p.2 ∧ (q.2 = p.2 →
      ∃ i j : Nat, i < j ∧ l[i]? = some p ∧ l[j]? = some q) := by
  obtain ⟨ep, hep, hep2⟩ := List.mem_map.mp hp
  obtain ⟨j, hj⟩ := List.mem_iff_getElem?.mp hq
  have hjq : (j, q) ∈ l.enum := List.mk_mem_enum_iff_getElem?.mpr (by rw [hj])
  have hjs : (j, q) ∈ l.enum.insertionSort nlargestLe :=
    (List.mem_insertionSort nlargestLe).mpr hjq
  have hjdrop : (j, q) ∈ (l.enum.insertionSort nlargestLe).drop 10 := by
    rw [← List.take_append_drop 10 (l.enum.insertionSort nlargestLe)] at hjs
    rcases List.mem_append.mp hjs with h | h
    · exact absurd (List.mem_map_of_mem (fun e => e.2) h) hqn
    · exact h
  have hpair : nlargestLe ep (j, q) := by
    have hps : List.Pairwise nlargestLe (l.enum.insertionSort nlargestLe) :=
      List.sorted_insertionSort nlargestLe _
    rw [← List.take_append_drop 10 (l.enum.insertionSort nlargestLe)] at hps
    exact (List.pairwise_append.mp hps).2.2 ep hep (j, q) hjdrop
  have hple : q.2 ≤ p.2 := by
    rcases hpair with h | ⟨h, _⟩
    · rw [← hep2]; exact le_of_lt h
    · exact le_of_eq (by rw [← hep2, ← h])
  refine ⟨hple, fun heq => ?_⟩
  have hij : ep.1 ≤ j := by
    rcases hpair with h | ⟨_, h⟩
    · exact absurd (by rw [hep2] at h; rw [heq] at h; exact h) (lt_irrefl p.2)
    · exact h
  have hepenum : ep ∈ l.enum :=
    (List.mem_insertionSort nlargestLe).mp (List.mem_of_mem_take hep)
  have hgi : l[ep.1]? = some p := by
    have := List.mk_mem_enum_iff_getElem?.mp
      (show (ep.1, ep.2) ∈ l.enum from hepenum)
    rw [hep2] at this
    exact this
  have hne : ep.1 ≠ j := by
    intro h
    rw [h, hj] at hgi
    have : q = p := by injection hgi
    exact hqn (this ▸ hp)
  exact ⟨ep.1, j, lt_of_le_of_ne hij hne, hgi, hj⟩

/-- C3: for every filtered view, the top-products result has at most
ten entries, each an entry of the grouped product totals; every kept
entry's measure is at least every dropped product's measure; a tie
between a kept and a dropped product means the kept one occurs earlier
in the grouped series (input order); and the final rows are sorted
ascending by measure. -/
theorem c3_top_products :
    ∀ (df : List Record) (sel : FilterSelection),
      ((updateGraphs df sel).topProducts).length ≤ 10
      ∧ List.Sorted salesAsc ((updateGraphs df sel).topProducts)
      ∧ (∀ p ∈ (updateGraphs df sel).topProducts,
          p ∈ groupBySum (fun r => r.productName) (filterData df sel))
      ∧ (∀ p ∈ (updateGraphs df sel).topProducts,
         ∀ q ∈ groupBySum (fun r => r.productName) (filterData df sel),
           q ∉ (updateGraphs df sel).topProducts →
             q.2 ≤ p.2 ∧ (q.2 = p.2 → ∃ i j : Nat, i < j
               ∧ (groupBySum (fun r => r.productName) (filterData df sel))[i]? = some p
               ∧ (groupBySum (fun r => r.productName) (filterData df sel))[j]? = some q)) := by
  intro df sel
  have htop : (updateGraphs df sel).topProducts
      = (nlargest 10 (groupBySum (fun r => r.productName)
          (filterData df sel))).insertionSort salesAsc := rfl
  refine ⟨?_, ?_, ?_, ?_⟩
  · rw [htop, List.length_insertionSort]
    unfold nlargest
    rw [List.length_map, List.length_take]
    exact Nat.min_le_left _ _
  · rw [htop]
    exact List.sorted_insertionSort salesAsc _
  · intro p hp
    rw [htop] at hp
    exact nlargest_subset ((List.mem_insertionSort salesAsc).mp hp)
  · intro p hp q hq hqn
    rw [htop] at hp hqn
    exact nlargest_choice ((List.mem_insertionSort salesAsc).mp hp) hq
      (fun h => hqn ((List.mem_insertionSort salesAsc).mpr h))

/-- Witness for C3 on the eleven-product dataset: P01 is kept, its tied
rival P02 is dropped, and the tie is resolved by position in the
grouped series. -/
theorem c3_witness :
    ((updateGraphs prodDf noFilter).topProducts).length ≤ 10
    ∧ ("P01", (1 : ℚ)) ∈ groupBySum (fun r => r.productName) (filterData prodDf noFilter)
    ∧ (("P02", (1 : ℚ)).2 ≤ ("P01", (1 : ℚ)).2
       ∧ (("P02", (1 : ℚ)).2 = ("P01", (1 : ℚ)).2 → ∃ i j : Nat, i < j
           ∧ (groupBySum (fun r => r.productName)
               (filterData prodDf noFilter))[i]? = some ("P01", (1 : ℚ))
           ∧ (groupBySum (fun r => r.productName)
               (filterData prodDf noFilter))[j]? = some ("P02", (1 : ℚ)))) :=
  ⟨(c3_top_products prodDf noFilter).1,
   (c3_top_products prodDf noFilter).2.2.1 ("P01", 1) (by with_unfolding_all decide),
   (c3_top_products prodDf noFilter).2.2.2 ("P01", 1) (by with_unfolding_all decide)
     ("P02", 1) (by with_unfolding_all decide) (by with_unfolding_all decide)⟩

/-- C10: a selection whose year is present but zero is treated exactly
as if the year were absent — the year filter is skipped and all results
agree with the year-free selection, so rows with Year = 0 can never be
isolated by a year filter. -/
theorem c10_year_zero_falsy :
    ∀ (df : List Record) (cats regs : List String),
      filterData df ⟨cats, regs, some 0⟩ = filterData df ⟨cats, regs, none⟩
      ∧ updateGraphs df ⟨cats, regs, some 0⟩ = updateGraphs df ⟨cats, regs, none⟩ :=
  fun _ _ _ => ⟨rfl, rfl⟩

end Superstore
